import Mathlib

/-!
# Verification of the weather-bot alert engine (`weather_bot.py`)

A shallow embedding of the bot's pure core: the JSON-shaped forecast data
model, the rain-interval extraction (`get_rain_forecast`), the suggestion
rules (`get_suggestions`), the report formatter, the location registry
command handlers (`add_command`, `remove_command`, `list_command`,
`weather_command`, `history_command`, `buymeacoffee_command`,
`mock_command`) and the scheduled dispatch loop
(`scheduled_weather_update`).

Conventions of the embedding:
* JSON dictionaries become structures whose fields are `Option`-valued;
  `dict.get(k, d)` becomes `field.getD d`.
* Numeric JSON values are modelled as `Int` (the comparisons in the source
  are against integer thresholds, so the order structure is all that
  matters).
* Python's local-time `strftime` formatting of `time_epoch` is an external,
  environment-dependent effect; it is passed in as a parameter
  `fmt : Int → String`.
* The external collaborators (weather provider, Telegram transport, config
  store, date parsing against the wall clock) are passed in as oracle
  functions; a store write that raises is a `saveOk = false` oracle.
* A Python expression that can raise an uncaught exception is embedded as
  an `Option` result (`none` = exception) or, for command handlers, as a
  `raised` flag in the handler result, since the Python globals keep their
  mutated value when an exception escapes the handler.
-/

namespace WeatherBot

/-- One hourly sample of `forecastday[0]['hour']`: the epoch timestamp and
the (possibly absent) `will_it_rain` flag. -/
structure Hour where
  time_epoch : Int
  will_it_rain : Option Bool
deriving Repr, DecidableEq

/-- The `condition` sub-dictionary. -/
structure Condition where
  text : Option String
deriving Repr, DecidableEq

/-- The `air_quality` sub-dictionary of the current conditions. -/
structure AirQuality where
  us_epa_index : Option Int
deriving Repr, DecidableEq

/-- The `current` conditions block. -/
structure Current where
  condition : Option Condition
  temp_c : Option Int
  feelslike_c : Option Int
  humidity : Option Int
  wind_kph : Option Int
  wind_dir : Option String
  uv : Option Int
  vis_km : Option Int
  air_quality : Option AirQuality
deriving Repr, DecidableEq

/-- The `day` aggregate of a forecast day (fields used by the suggestion
engine and by the `/history` message). -/
structure Day where
  daily_will_it_rain : Option Bool
  daily_chance_of_rain : Option Int
  condition : Option Condition
  maxtemp_c : Option Int
  mintemp_c : Option Int
  avgtemp_c : Option Int
  totalprecip_mm : Option Int
deriving Repr, DecidableEq

/-- One element of the `forecastday` list. -/
structure ForecastDay where
  hour : Option (List Hour)
  day : Option Day
deriving Repr, DecidableEq

/-- The `forecast` block of a WeatherAPI response. -/
structure Forecast where
  forecastday : Option (List ForecastDay)
deriving Repr, DecidableEq

/-- A whole WeatherAPI response body. -/
structure WeatherData where
  current : Option Current
  forecast : Option Forecast
deriving Repr, DecidableEq

/-- The empty dictionary `{}` read as a `Condition`. -/
def Condition.empty : Condition := ⟨none⟩

/-- The empty dictionary `{}` read as an `AirQuality`. -/
def AirQuality.empty : AirQuality := ⟨none⟩

/-- The empty dictionary `{}` read as a `Current`. -/
def Current.empty : Current := ⟨none, none, none, none, none, none, none, none, none⟩

/-- The empty dictionary `{}` read as a `Day`. -/
def Day.empty : Day := ⟨none, none, none, none, none, none, none⟩

/-- The empty dictionary `{}` read as a `ForecastDay` (the default element
of `forecast.get('forecastday', [{}])`). -/
def ForecastDay.empty : ForecastDay := ⟨none, none⟩

/-- The empty dictionary `{}` read as a `Forecast`. -/
def Forecast.empty : Forecast := ⟨none⟩

/-- Python string interpolation of a possibly absent string: `None` prints
as `"None"`. -/
def pyS : Option String → String
  | some s => s
  | none => "None"

/-- Python string interpolation of a possibly absent integer. -/
def pyI : Option Int → String
  | some n => toString n
  | none => "None"

/-- Python's `str.lower()`: character-wise lowercasing.  (Equivalent to
core's `String.toLower`, but kernel-reducible, so concrete instances can
be settled by `decide`.) -/
def lowerStr (s : String) : String := ⟨s.data.map Char.toLower⟩

/-! ## Rain-interval extraction (`get_rain_forecast`, lines 80-101) -/

/-- The scan loop of `get_rain_forecast`: state variables `is_raining`,
`start_time` and the accumulated `rain_periods`, plus the trailing
"onwards" close-out of lines 95-96.  `hour.get('will_it_rain')` truthiness
is `(will_it_rain.getD false)`. -/
def rainScan (fmt : Int → String) : List Hour → Bool → String → List String → List String
  | [], is_raining, start_time, rain_periods =>
    if is_raining then rain_periods ++ ["from " ++ start_time ++ " onwards"]
    else rain_periods
  | h :: rest, is_raining, start_time, rain_periods =>
    if h.will_it_rain.getD false = true ∧ is_raining = false then
      rainScan fmt rest true (fmt h.time_epoch) rain_periods
    else if h.will_it_rain.getD false = false ∧ is_raining = true then
      rainScan fmt rest false start_time
        (rain_periods ++ ["from " ++ start_time ++ " to " ++ fmt h.time_epoch])
    else
      rainScan fmt rest is_raining start_time rain_periods

/-- Lines 98-101: the final summary string built from the recorded
periods. -/
def rainSummary (rain_periods : List String) : String :=
  if rain_periods = [] then "No rain expected today."
  else "Rain expected " ++ String.intercalate ", " rain_periods ++ "."

/-- `get_rain_forecast` restricted to the hourly sample list it iterates
over. -/
def get_rain_forecast_hours (fmt : Int → String) (hours : List Hour) : String :=
  rainSummary (rainScan fmt hours false "" [])

/-- `get_rain_forecast(forecast)` (lines 80-101).  The subscript
`forecast.get('forecastday', [{}])[0]` raises `IndexError` when the key is
present but the list is empty; that exception is the `none` result. -/
def get_rain_forecast (fmt : Int → String) (forecast : Forecast) : Option String :=
  ((forecast.forecastday.getD [ForecastDay.empty]).head?).map fun fd =>
    get_rain_forecast_hours fmt (fd.hour.getD [])

namespace RainIntervalExtractor

/-- Modelled from the spec, §4.1: the interval list of the reference
run-length algorithm.  The state is `none` (not currently raining) or
`some s` (raining since formatted time `s`).  On a false→true transition
the sample's formatted time opens an interval; on a true→false transition
the interval closes as `"from <start> to <end>"` with the current sample's
time; a scan ending in the raining state closes as
`"from <start> onwards"`. -/
def intervalsFrom : List (Bool × String) → Option String → List String
  | [], none => []
  | [], some s => ["from " ++ s ++ " onwards"]
  | (flag, t) :: rest, none =>
    if flag then intervalsFrom rest (some t) else intervalsFrom rest none
  | (flag, t) :: rest, some s =>
    if flag then intervalsFrom rest (some s)
    else ("from " ++ s ++ " to " ++ t) :: intervalsFrom rest none

/-- Modelled from the spec, §4.1: `extract` returns the literal
"No rain expected today." when zero intervals were recorded, and otherwise
"Rain expected " followed by the intervals joined with ", " and a trailing
period. -/
def extract (samples : List (Bool × String)) : String :=
  match intervalsFrom samples none with
  | [] => "No rain expected today."
  | ivs => "Rain expected " ++ String.intercalate ", " ivs ++ "."

end RainIntervalExtractor

/-- The flag/formatted-time view of an hourly sample list, as consumed by
the reference extractor. -/
def flagged (fmt : Int → String) (hours : List Hour) : List (Bool × String) :=
  hours.map fun h => (h.will_it_rain.getD false, fmt h.time_epoch)

/-! ## Suggestion engine (`get_suggestions`, lines 103-123) -/

/-- Line 109. -/
def umbrellaMsg : String :=
  "Light drizzle or rain is possible—consider carrying an umbrella."

/-- Line 113. -/
def aqGoodMsg : String :=
  "Air quality is good—a great day for outdoor activities."

/-- Line 115. -/
def aqPoorMsg : String :=
  "Air quality is poor—it may be wise to limit strenuous outdoor activities."

/-- Line 119. -/
def uvHighMsg : String :=
  "UV index is high—use sunscreen and wear protective clothing if outdoors."

/-- Line 121. -/
def uvModMsg : String :=
  "UV index is moderate—use sunscreen if staying outdoors for extended periods."

/-- Line 111: `current.get('air_quality', {}).get('us-epa-index', 0)`. -/
def aqiOf (current : Current) : Int :=
  ((current.air_quality.getD AirQuality.empty).us_epa_index).getD 0

/-- Lines 105-122: the suggestion list built from the three rules, in
order umbrella, air quality, UV.  `day_forecast.get('daily_will_it_rain')`
truthiness is `getD false`; `day_forecast.get('daily_chance_of_rain', 0)`
is `getD 0`; `current.get('uv', 0)` is `getD 0`. -/
def suggestionsList (current : Current) (day_forecast : Day) : List String :=
  (if day_forecast.daily_will_it_rain.getD false = true ∨
      day_forecast.daily_chance_of_rain.getD 0 > 40
   then [umbrellaMsg] else [])
  ++ (if aqiOf current ≤ 2 then [aqGoodMsg] else [aqPoorMsg])
  ++ (if current.uv.getD 0 > 5 then [uvHighMsg]
      else if current.uv.getD 0 > 2 then [uvModMsg] else [])

/-- Line 106: `forecast.get('forecastday', [{}])[0].get('day', {})`; the
subscript on a present-but-empty list raises, hence `Option`. -/
def dayOf (forecast : Forecast) : Option Day :=
  ((forecast.forecastday.getD [ForecastDay.empty]).head?).map fun fd =>
    fd.day.getD Day.empty

/-- Line 123: `"\n".join(f"- {s}" for s in suggestions) or "- Enjoy your day!"`
(an empty joined string is falsy in Python). -/
def get_suggestions (current : Current) (forecast : Forecast) : Option String :=
  (dayOf forecast).map fun day_forecast =>
    let joined := String.intercalate "\n"
      ((suggestionsList current day_forecast).map fun s => "- " ++ s)
    if joined = "" then "- Enjoy your day!" else joined

/-! ## Location registry state -/

/-- The mutable registry state: `WHITELISTED_USERS` and `user_locations`.
`user_locations` is an insertion-ordered association list (a Python dict);
an absent key is equivalent to an empty location list. -/
structure RegState where
  whitelist : List String
  user_locations : List (String × List String)
deriving Repr, DecidableEq

/-- Association-list lookup (first match), the dict read. -/
def alookup : List (String × List String) → String → Option (List String)
  | [], _ => none
  | p :: rest, uid => if p.1 = uid then some p.2 else alookup rest uid

/-- `user_locations.get(user_id, [])`. -/
def lookupLocs (m : List (String × List String)) (uid : String) : List String :=
  (alookup m uid).getD []

/-- `user_locations.setdefault(user_id, [])` (line 257). -/
def setdefaultL (m : List (String × List String)) (uid : String) :
    List (String × List String) :=
  if (alookup m uid).isSome then m else m ++ [(uid, [])]

/-- `user_locations[user_id] = v`: update in place when the key is
present, append otherwise. -/
def setLocs (m : List (String × List String)) (uid : String)
    (v : List String) : List (String × List String) :=
  if (alookup m uid).isSome then
    m.map fun p => if p.1 = uid then (uid, v) else p
  else m ++ [(uid, v)]

/-! ## Command handlers

Each handler returns the next state, the ordered list of outgoing
messages, and whether an uncaught exception escaped (`raised`).  A store
write that fails raises inside `update_config_file`, so the handler keeps
its in-memory mutation, sends no further reply, and raises. -/

/-- One outgoing Telegram message: recipient chat, text, and whether the
transport delivered it (a `TelegramError` is caught and only logged). -/
structure Ev where
  chat : String
  text : String
  delivered : Bool
deriving Repr, DecidableEq

/-- `update.message.reply_text(...)`. -/
def mkEv (chat text : String) : Ev := ⟨chat, text, true⟩

/-- Result of one handler invocation. -/
structure HRes where
  st : RegState
  evs : List Ev
  raised : Bool
deriving Repr, DecidableEq

/-- `add_command` (lines 245-263).  `validate` is the
`get_weather(city, KEY, days=1)` probe (truthiness of its result);
`saveOk` is whether the `update_config_file()` write succeeds. -/
def add_command (validate : String → Bool) (saveOk : Bool) (st : RegState)
    (user_id chat_id : String) (args : List String) : HRes :=
  if user_id ∉ st.whitelist then ⟨st, [], false⟩
  else if args = [] then ⟨st, [mkEv chat_id "Usage: /add <city>"], false⟩
  else
    let city := String.intercalate " " args
    if validate city = false then
      ⟨st, [mkEv chat_id ("Invalid city: '" ++ city ++ "'. Please check the name.")], false⟩
    else
      let m1 := setdefaultL st.user_locations user_id
      let locs := lookupLocs m1 user_id
      if lowerStr city ∉ locs.map lowerStr then
        let st2 : RegState := ⟨st.whitelist, setLocs m1 user_id (locs ++ [city])⟩
        if saveOk then
          ⟨st2, [mkEv chat_id ("Added '" ++ city ++ "' to your locations.")], false⟩
        else ⟨st2, [], true⟩
      else ⟨⟨st.whitelist, m1⟩,
        [mkEv chat_id ("'" ++ city ++ "' is already in your list.")], false⟩

/-- `remove_command` (lines 265-278). -/
def remove_command (saveOk : Bool) (st : RegState)
    (user_id chat_id : String) (args : List String) : HRes :=
  if user_id ∉ st.whitelist then ⟨st, [], false⟩
  else if args = [] then ⟨st, [mkEv chat_id "Usage: /remove <city>"], false⟩
  else
    let city_to_remove := String.intercalate " " args
    if (alookup st.user_locations user_id).isSome = true ∧
        lowerStr city_to_remove ∈
          (lookupLocs st.user_locations user_id).map lowerStr then
      let st2 : RegState := ⟨st.whitelist,
        setLocs st.user_locations user_id
          ((lookupLocs st.user_locations user_id).filter
            fun loc => lowerStr loc != lowerStr city_to_remove)⟩
      if saveOk then
        ⟨st2, [mkEv chat_id ("Removed '" ++ city_to_remove ++ "'.")], false⟩
      else ⟨st2, [], true⟩
    else ⟨st,
      [mkEv chat_id ("'" ++ city_to_remove ++ "' not found in your list.")], false⟩

/-- `list_command` (lines 280-285). -/
def list_command (st : RegState) (user_id chat_id : String) : HRes :=
  if user_id ∉ st.whitelist then ⟨st, [], false⟩
  else
    let locations := lookupLocs st.user_locations user_id
    if locations ≠ [] then
      ⟨st, [mkEv chat_id
        ("**Your locations:**\n- " ++ String.intercalate "\n- " locations)], false⟩
    else ⟨st, [mkEv chat_id "You have no locations."], false⟩

/-- `buymeacoffee_command` (lines 287-294): the self-service whitelist
grant.  Note the whitelist append happens before the persistence write. -/
def buymeacoffee_command (saveOk : Bool) (st : RegState)
    (user_id chat_id : String) : HRes :=
  if user_id ∈ st.whitelist then
    ⟨st, [mkEv chat_id "You are already whitelisted."], false⟩
  else
    let st2 : RegState := ⟨st.whitelist ++ [user_id], st.user_locations⟩
    if saveOk then
      ⟨st2, [mkEv chat_id "You are now whitelisted! Use /start to see commands."], false⟩
    else ⟨st2, [], true⟩

/-- Lines 169-176: the `/start` and `/help` text. -/
def startMessage : String :=
  "**Welcome to the Advanced Weather Bot!**\n\n" ++
  "**/weather [city]**: Get current weather. Shows all your locations if no city is specified.\n" ++
  "**/add <city>**: Add a city to your daily alert list.\n" ++
  "**/remove <city>**: Remove a city from your list.\n" ++
  "**/list**: View your list of registered locations.\n" ++
  "**/help**: Show this help message."

/-- `start_command` (lines 167-177): replies to every caller, with no
whitelist check. -/
def start_command (st : RegState) (chat_id : String) : HRes :=
  ⟨st, [mkEv chat_id startMessage], false⟩

/-! ## C6: idempotence under case variation and the no-duplicate invariant -/

/-- The parameters of one `add_command` invocation, for iterating
arbitrary sequences of adds. -/
structure AddReq where
  validate : String → Bool
  saveOk : Bool
  user_id : String
  chat_id : String
  args : List String

/-- The state after one `add_command` invocation. -/
def applyAdd (st : RegState) (r : AddReq) : RegState :=
  (add_command r.validate r.saveOk st r.user_id r.chat_id r.args).st

/-- No recipient's list contains two case-insensitively equal
locations. -/
def NoCaseDup (st : RegState) : Prop :=
  ∀ p ∈ st.user_locations, (p.2.map lowerStr).Nodup

instance : DecidablePred NoCaseDup := fun st =>
  List.decidableBAll _ st.user_locations

/-! ## Report formatter (`format_weather_report`, lines 125-146) -/

/-- The `aqi_levels` dictionary of line 132. -/
def aqi_levels (i : Int) : Option String :=
  if i = 1 then some "Good"
  else if i = 2 then some "Moderate"
  else if i = 3 then some "Unhealthy for Sensitive Groups"
  else if i = 4 then some "Unhealthy"
  else if i = 5 then some "Very Unhealthy"
  else if i = 6 then some "Hazardous"
  else none

/-- `format_weather_report(city, weather_data)` (lines 125-146).  The
first subscript on an empty present `forecastday` list (the unused `astro`
read of line 129) raises, as do the same subscripts inside
`get_rain_forecast` and `get_suggestions`; `none` models that
exception. -/
def format_weather_report (fmt : Int → String) (city : String)
    (weather_data : WeatherData) : Option String :=
  let current := weather_data.current.getD Current.empty
  let forecast := weather_data.forecast.getD Forecast.empty
  match (forecast.forecastday.getD [ForecastDay.empty]).head? with
  | none => none
  | some _ =>
    (get_rain_forecast fmt forecast).bind fun rain_line =>
      (get_suggestions current forecast).map fun suggestions_line =>
        let aqi_index := ((current.air_quality.getD AirQuality.empty).us_epa_index).getD 0
        let aqi_desc := (aqi_levels aqi_index).getD "Unknown"
        "**Weather Update for " ++ city ++ "**\n" ++
        "_" ++ pyS ((current.condition.getD Condition.empty).text) ++ "_\n\n" ++
        "*Temperature*: " ++ pyI current.temp_c ++ "°C (Feels like: " ++
          pyI current.feelslike_c ++ "°C)\n" ++
        "*Humidity*: " ++ pyI current.humidity ++ "% | *Wind*: " ++
          pyI current.wind_kph ++ " km/h " ++ pyS current.wind_dir ++ "\n" ++
        "*UV Index*: " ++ pyI current.uv ++ " | *Visibility*: " ++
          pyI current.vis_km ++ " km\n\n" ++
        "**Rain Forecast**\n" ++ rain_line ++ "\n\n" ++
        "**Air & Light**\n" ++
        "*Air Quality*: " ++ toString aqi_index ++ " - " ++ aqi_desc ++ "\n\n" ++
        "**Suggestions for the Day**\n" ++ suggestions_line

/-! ## Transport and dispatch (lines 71-76, 150-165, 179-190) -/

/-- `send_telegram_message` (lines 71-76): a `TelegramError` is caught and
logged, so a failed send is recorded but never raises. -/
def send_telegram_message (sendOk : String → String → Bool)
    (chat_id message : String) : Ev :=
  ⟨chat_id, message, sendOk chat_id message⟩

/-- `send_weather_report` (lines 150-157).  `fetch` is
`get_weather(city, KEY)` (`none` = request failure, already caught inside
`get_weather`).  A formatting exception (malformed successful fetch)
escapes, flagged as `true`. -/
def send_weather_report (fmt : Int → String)
    (fetch : String → Option WeatherData) (sendOk : String → String → Bool)
    (chat_id city : String) : List Ev × Bool :=
  match fetch city with
  | some weather_data =>
    match format_weather_report fmt city weather_data with
    | some report => ([send_telegram_message sendOk chat_id report], false)
    | none => ([], true)
  | none =>
    ([send_telegram_message sendOk chat_id
        ("Could not retrieve weather for " ++ city ++ ".")], false)

/-- The inner `for city in locations` loop; an escaped exception aborts
the remainder. -/
def runCities (fmt : Int → String) (fetch : String → Option WeatherData)
    (sendOk : String → String → Bool) (chat_id : String) :
    List String → List Ev × Bool
  | [] => ([], false)
  | city :: rest =>
    let r := send_weather_report fmt fetch sendOk chat_id city
    if r.2 then r
    else
      let r2 := runCities fmt fetch sendOk chat_id rest
      (r.1 ++ r2.1, r2.2)

/-- The outer `for user_id, locations in user_locations.items()` loop of
`scheduled_weather_update` with its whitelist guard (lines 162-165). -/
def runUsers (fmt : Int → String) (fetch : String → Option WeatherData)
    (sendOk : String → String → Bool) (wl : List String) :
    List (String × List String) → List Ev × Bool
  | [] => ([], false)
  | (user_id, locations) :: rest =>
    if user_id ∈ wl then
      let r := runCities fmt fetch sendOk user_id locations
      if r.2 then r
      else
        let r2 := runUsers fmt fetch sendOk wl rest
        (r.1 ++ r2.1, r2.2)
    else runUsers fmt fetch sendOk wl rest

/-- `scheduled_weather_update` (lines 159-165). -/
def scheduled_weather_update (fmt : Int → String)
    (fetch : String → Option WeatherData) (sendOk : String → String → Bool)
    (st : RegState) : List Ev × Bool :=
  runUsers fmt fetch sendOk st.whitelist st.user_locations

/-- `weather_command` (lines 179-190). -/
def weather_command (fmt : Int → String)
    (fetch : String → Option WeatherData) (sendOk : String → String → Bool)
    (st : RegState) (user_id chat_id : String) (args : List String) : HRes :=
  if user_id ∉ st.whitelist then ⟨st, [], false⟩
  else
    let cities := if args ≠ [] then [String.intercalate " " args]
      else lookupLocs st.user_locations user_id
    if cities = [] then
      ⟨st, [mkEv chat_id "Please specify a city or add one with /add <city>."], false⟩
    else
      let r := runCities fmt fetch sendOk chat_id cities
      ⟨st, r.1, r.2⟩

/-- The `/history` reply body (lines 220-229). -/
def histDayMessage (city date_str : String) (day_data : Day) : String :=
  "**Historical Weather for " ++ city ++ " on " ++ date_str ++ "**\n" ++
  "- *Condition*: " ++ pyS ((day_data.condition.getD Condition.empty).text) ++ "\n" ++
  "- *Max Temp*: " ++ pyI day_data.maxtemp_c ++ "°C\n" ++
  "- *Min Temp*: " ++ pyI day_data.mintemp_c ++ "°C\n" ++
  "- *Avg Temp*: " ++ pyI day_data.avgtemp_c ++ "°C\n" ++
  "- *Total Precip*: " ++ pyI day_data.totalprecip_mm ++ " mm"

/-- `history_command` (lines 194-229).  `parseOk` is whether
`strptime(date_str, '%Y-%m-%d')` succeeds; `isFuture` compares the parsed
date against today's wall clock; `fetchHist` is `get_historical_weather`.
The `forecastday` subscript on the response can raise. -/
def history_command (parseOk isFuture : String → Bool)
    (fetchHist : String → String → Option WeatherData) (st : RegState)
    (user_id chat_id : String) (args : List String) : HRes :=
  if user_id ∉ st.whitelist then ⟨st, [], false⟩
  else if args.length < 2 then
    ⟨st, [mkEv chat_id "Usage: /history <YYYY-MM-DD> <city>"], false⟩
  else
    match args with
    | [] => ⟨st, [mkEv chat_id "Usage: /history <YYYY-MM-DD> <city>"], false⟩
    | date_str :: cityArgs =>
      let city := String.intercalate " " cityArgs
      if parseOk date_str = false then
        ⟨st, [mkEv chat_id "Invalid date format. Please use YYYY-MM-DD."], false⟩
      else if isFuture date_str then
        ⟨st, [mkEv chat_id "Cannot get history for a future date."], false⟩
      else
        match fetchHist city date_str with
        | none =>
          ⟨st, [mkEv chat_id
            ("Could not get history for " ++ city ++ " on " ++ date_str ++ ".")], false⟩
        | some hist_data =>
          match ((hist_data.forecast.getD Forecast.empty).forecastday.getD
              [ForecastDay.empty]).head? with
          | none => ⟨st, [], true⟩
          | some fd =>
            ⟨st, [mkEv chat_id (histDayMessage city date_str (fd.day.getD Day.empty))],
              false⟩

/-- The external oracles of one bot session: report-time formatting, the
two provider endpoints, the transport, the city-validation probe, the
store write, and date parsing against the wall clock. -/
structure O where
  fmt : Int → String
  fetch : String → Option WeatherData
  sendOk : String → String → Bool
  validate : String → Bool
  saveOk : Bool
  parseOk : String → Bool
  isFuture : String → Bool
  fetchHist : String → String → Option WeatherData

/-- The static configuration: the `ADMINS` list. -/
structure Env where
  admins : List String

/-- `mock_command` (lines 296-334): admin-gated re-dispatch by command
name; the mocked handler runs with the admin's own `user_id` and the
original chat. -/
def mock_command (o : O) (env : Env) (st : RegState)
    (user_id chat_id : String) (args : List String) : HRes :=
  if user_id ∉ env.admins then
    ⟨st, [mkEv chat_id "You are not authorized to use this command."], false⟩
  else
    match args with
    | [] => ⟨st, [mkEv chat_id "Usage: /mock <command> [args...]"], false⟩
    | command_to_mock :: mock_args =>
      if command_to_mock = "weather" then
        weather_command o.fmt o.fetch o.sendOk st user_id chat_id mock_args
      else if command_to_mock = "add" then
        add_command o.validate o.saveOk st user_id chat_id mock_args
      else if command_to_mock = "remove" then
        remove_command o.saveOk st user_id chat_id mock_args
      else if command_to_mock = "list" then
        list_command st user_id chat_id
      else if command_to_mock = "history" then
        history_command o.parseOk o.isFuture o.fetchHist st user_id chat_id mock_args
      else if command_to_mock = "buymeacoffee" then
        buymeacoffee_command o.saveOk st user_id chat_id
      else if command_to_mock = "start" ∨ command_to_mock = "help" then
        start_command st chat_id
      else if command_to_mock = "scheduledalert" then
        let r := scheduled_weather_update o.fmt o.fetch o.sendOk st
        ⟨st, r.1, r.2⟩
      else
        ⟨st, [mkEv chat_id
          ("Command '/" ++ command_to_mock ++ "' cannot be mocked or does not exist.")],
          false⟩

/-- The registered command surface (lines 351-362; `/help` shares the
`/start` handler). -/
inductive Cmd where
  | weather (args : List String)
  | add (args : List String)
  | remove (args : List String)
  | locList
  | history (args : List String)
  | coffee
  | startHelp
  | mock (args : List String)

/-- One command invocation routed to its handler. -/
def dispatch (o : O) (env : Env) (st : RegState) (cmd : Cmd)
    (user_id chat_id : String) : HRes :=
  match cmd with
  | .weather args => weather_command o.fmt o.fetch o.sendOk st user_id chat_id args
  | .add args => add_command o.validate o.saveOk st user_id chat_id args
  | .remove args => remove_command o.saveOk st user_id chat_id args
  | .locList => list_command st user_id chat_id
  | .history args => history_command o.parseOk o.isFuture o.fetchHist st user_id chat_id args
  | .coffee => buymeacoffee_command o.saveOk st user_id chat_id
  | .startHelp => start_command st chat_id
  | .mock args => mock_command o env st user_id chat_id args

/-- Lines 44-45: `ADMIN_CHAT_ID` is appended to `WHITELISTED_USERS` at
startup when absent. -/
def initWhitelist (w : List String) (admin_chat_id : String) : List String :=
  if admin_chat_id ∉ w then w ++ [admin_chat_id] else w

/-- The one message attempt a (recipient, city) pair produces in the
dispatch loop: the formatted report when the fetch succeeds, the
could-not-retrieve notice when it fails. -/
def expectedReportEv (fmt : Int → String)
    (fetch : String → Option WeatherData) (sendOk : String → String → Bool)
    (chat_id city : String) : Ev :=
  match fetch city with
  | some wd =>
    send_telegram_message sendOk chat_id ((format_weather_report fmt city wd).getD "")
  | none =>
    send_telegram_message sendOk chat_id
      ("Could not retrieve weather for " ++ city ++ ".")

/-- A concrete oracle bundle for witnesses. -/
def oW : O :=
  ⟨fun _ => "", fun _ => none, fun _ _ => true, fun _ => true, true,
    fun _ => true, fun _ => false, fun _ _ => none⟩

theorem rainScan_eq_intervalsFrom (fmt : Int → String) :
    ∀ (hours : List Hour) (b : Bool) (s : String) (acc : List String),
      rainScan fmt hours b s acc =
        acc ++ RainIntervalExtractor.intervalsFrom (flagged fmt hours)
          (if b then some s else none) := by
  intro hours
  induction hours with
  | nil =>
    intro b s acc
    cases b <;> simp [rainScan, flagged, RainIntervalExtractor.intervalsFrom]
  | cons h rest ih =>
    intro b s acc
    cases hf : h.will_it_rain.getD false <;> cases b <;>
      simp [rainScan, flagged, RainIntervalExtractor.intervalsFrom, hf, ih]

theorem intervalsFrom_all_false :
    ∀ (l : List (Bool × String)), (∀ p ∈ l, p.1 = false) →
      RainIntervalExtractor.intervalsFrom l none = [] := by
  intro l
  induction l with
  | nil => intro _; rfl
  | cons p rest ih =>
    intro h
    have hp : p.1 = false := h p (by simp)
    obtain ⟨flag, t⟩ := p
    simp only at hp
    subst hp
    show RainIntervalExtractor.intervalsFrom rest none = []
    exact ih fun q hq => h q (by simp [hq])

theorem rainSummary_extract (l : List (Bool × String)) :
    rainSummary (RainIntervalExtractor.intervalsFrom l none) =
      RainIntervalExtractor.extract l := by
  unfold RainIntervalExtractor.extract
  cases h : RainIntervalExtractor.intervalsFrom l none with
  | nil => simp [rainSummary]
  | cons a t => simp [rainSummary]

theorem rainScan_normalize (fmt : Int → String) :
    ∀ (hours : List Hour) (b : Bool) (s : String) (acc : List String),
      rainScan fmt hours b s acc =
        rainScan fmt
          (hours.map fun h => ⟨h.time_epoch, some (h.will_it_rain.getD false)⟩)
          b s acc := by
  intro hours
  induction hours with
  | nil => intro b s acc; rfl
  | cons h rest ih =>
    intro b s acc
    cases hf : h.will_it_rain.getD false <;> cases b <;>
      simp [rainScan, hf, ih]

theorem get_rain_forecast_hours_all_false (fmt : Int → String)
    (hours : List Hour) (hnone : ∀ h ∈ hours, h.will_it_rain.getD false = false) :
    get_rain_forecast_hours fmt hours = "No rain expected today." := by
  unfold get_rain_forecast_hours
  rw [rainScan_eq_intervalsFrom]
  have hall : ∀ p ∈ flagged fmt hours, p.1 = false := by
    intro p hp
    simp only [flagged, List.mem_map] at hp
    obtain ⟨h, hh, rfl⟩ := hp
    exact hnone h hh
  simp only [if_neg (by simp : ¬ (false = true)), List.nil_append,
    intervalsFrom_all_false _ hall]
  rfl

/-- C3: `get_rain_forecast`'s scan over hourly samples with boolean rain
flags coincides with the reference run-length algorithm of the spec
(§4.1): a false→true transition opens an interval at the sample's
formatted time, a true→false transition closes it with the current
sample's time, a trailing raining state closes with "onwards", zero
intervals yield exactly "No rain expected today." (in particular for any
sequence with no rain flag set), and otherwise the intervals are joined
with ", " after "Rain expected " and a trailing period is appended. -/
theorem rain_extract_matches_reference :
    (∀ (fmt : Int → String) (samples : List (Bool × Int)),
      get_rain_forecast_hours fmt (samples.map fun p => ⟨p.2, some p.1⟩) =
        RainIntervalExtractor.extract (samples.map fun p => (p.1, fmt p.2)))
    ∧ (∀ (fmt : Int → String) (hours : List Hour),
        (∀ h ∈ hours, h.will_it_rain.getD false = false) →
        get_rain_forecast_hours fmt hours = "No rain expected today.") := by
  constructor
  · intro fmt samples
    unfold get_rain_forecast_hours
    rw [rainScan_eq_intervalsFrom]
    have hmap : flagged fmt (samples.map fun p => ⟨p.2, some p.1⟩) =
        samples.map fun p => (p.1, fmt p.2) := by
      simp [flagged, List.map_map, Function.comp_def]
    simp only [if_neg (by simp : ¬ (false = true)), List.nil_append, hmap]
    exact rainSummary_extract _
  · intro fmt hours hnone
    exact get_rain_forecast_hours_all_false fmt hours hnone

theorem rain_extract_matches_reference_witness :
    get_rain_forecast_hours (fun _ => "08:00 AM") [⟨0, some false⟩, ⟨3600, none⟩] =
      "No rain expected today." :=
  rain_extract_matches_reference.2 (fun _ => "08:00 AM")
    [⟨0, some false⟩, ⟨3600, none⟩] (by decide)

/-- C10: `get_rain_forecast` is total on the malformed shapes it is
claimed total on: a missing `forecastday` list, a missing or empty `hour`
list, and hourly samples lacking the `will_it_rain` flag all produce a
result rather than an error; a flagless sample behaves exactly like a
sample flagged as not raining (so it can close but never open an
interval), and an input with no usable samples yields
"No rain expected today.". -/
theorem rain_total_on_malformed :
    (∀ (fmt : Int → String) (f : Forecast), f.forecastday = none →
      get_rain_forecast fmt f = some "No rain expected today.")
    ∧ (∀ (fmt : Int → String) (f : Forecast) (fd : ForecastDay)
        (rest : List ForecastDay), f.forecastday = some (fd :: rest) →
        (fd.hour = none ∨ fd.hour = some []) →
        get_rain_forecast fmt f = some "No rain expected today.")
    ∧ (∀ (fmt : Int → String) (f : Forecast), f.forecastday ≠ some [] →
        (get_rain_forecast fmt f).isSome = true)
    ∧ (∀ (fmt : Int → String) (hours : List Hour),
        get_rain_forecast_hours fmt hours =
          get_rain_forecast_hours fmt
            (hours.map fun h => ⟨h.time_epoch, some (h.will_it_rain.getD false)⟩))
    ∧ (∀ (fmt : Int → String) (hours : List Hour),
        (∀ h ∈ hours, h.will_it_rain = none) →
        get_rain_forecast_hours fmt hours = "No rain expected today.") := by
  refine ⟨?_, ?_, ?_, ?_, ?_⟩
  · intro fmt f hf
    simp [get_rain_forecast, hf, get_rain_forecast_hours, ForecastDay.empty,
      rainScan, rainSummary]
  · intro fmt f fd rest hf hhour
    have hhours : fd.hour.getD [] = [] := by
      rcases hhour with h | h <;> simp [h]
    simp [get_rain_forecast, hf, get_rain_forecast_hours, hhours, rainScan,
      rainSummary]
  · intro fmt f hf
    cases hfd : f.forecastday with
    | none => simp [get_rain_forecast, hfd, ForecastDay.empty]
    | some l =>
      cases l with
      | nil => exact absurd hfd hf
      | cons fd rest => simp [get_rain_forecast, hfd]
  · intro fmt hours
    unfold get_rain_forecast_hours
    rw [rainScan_normalize]
  · intro fmt hours hnone
    exact get_rain_forecast_hours_all_false fmt hours fun h hh => by
      simp [hnone h hh]

theorem rain_total_on_malformed_witness :
    get_rain_forecast (fun _ => "08:00 AM") ⟨none⟩ = some "No rain expected today." :=
  rain_total_on_malformed.1 (fun _ => "08:00 AM") ⟨none⟩ rfl

theorem good_mem_iff (c : Current) (d : Day) :
    aqGoodMsg ∈ suggestionsList c d ↔ aqiOf c ≤ 2 := by
  simp only [suggestionsList, List.mem_append]
  split_ifs <;>
    simp_all [umbrellaMsg, aqGoodMsg, aqPoorMsg, uvHighMsg, uvModMsg]

theorem poor_mem_iff (c : Current) (d : Day) :
    aqPoorMsg ∈ suggestionsList c d ↔ ¬ aqiOf c ≤ 2 := by
  simp only [suggestionsList, List.mem_append]
  split_ifs <;>
    simp_all [umbrellaMsg, aqGoodMsg, aqPoorMsg, uvHighMsg, uvModMsg]

theorem umb_mem_iff (c : Current) (d : Day) :
    umbrellaMsg ∈ suggestionsList c d ↔
      (d.daily_will_it_rain.getD false = true ∨
        d.daily_chance_of_rain.getD 0 > 40) := by
  simp only [suggestionsList, List.mem_append]
  split_ifs <;>
    simp_all [umbrellaMsg, aqGoodMsg, aqPoorMsg, uvHighMsg, uvModMsg]

theorem high_mem_iff (c : Current) (d : Day) :
    uvHighMsg ∈ suggestionsList c d ↔ c.uv.getD 0 > 5 := by
  simp only [suggestionsList, List.mem_append]
  split_ifs <;>
    simp_all [umbrellaMsg, aqGoodMsg, aqPoorMsg, uvHighMsg, uvModMsg]

theorem mod_mem_iff (c : Current) (d : Day) :
    uvModMsg ∈ suggestionsList c d ↔
      (2 < c.uv.getD 0 ∧ c.uv.getD 0 ≤ 5) := by
  simp only [suggestionsList, List.mem_append]
  split_ifs with h1 h2 h3 h4 <;>
    simp_all [umbrellaMsg, aqGoodMsg, aqPoorMsg, uvHighMsg, uvModMsg]

theorem count_aq (c : Current) (d : Day) :
    (suggestionsList c d).count aqGoodMsg +
      (suggestionsList c d).count aqPoorMsg = 1 := by
  simp only [suggestionsList]
  split_ifs <;>
    simp [List.count_append, List.count_cons, List.count_nil,
      umbrellaMsg, aqGoodMsg, aqPoorMsg, uvHighMsg, uvModMsg]

theorem suggestions_ne_nil (c : Current) (d : Day) :
    suggestionsList c d ≠ [] := by
  simp only [suggestionsList]
  split_ifs <;> simp

theorem suggestions_sublist (c : Current) (d : Day) :
    List.Sublist (suggestionsList c d)
      [umbrellaMsg, aqGoodMsg, aqPoorMsg, uvHighMsg, uvModMsg] := by
  have h : [umbrellaMsg, aqGoodMsg, aqPoorMsg, uvHighMsg, uvModMsg] =
      [umbrellaMsg] ++ [aqGoodMsg, aqPoorMsg] ++ [uvHighMsg, uvModMsg] := rfl
  rw [h]
  unfold suggestionsList
  refine List.Sublist.append (List.Sublist.append ?_ ?_) ?_
  · split_ifs <;> simp
  · split_ifs <;> simp
  · split_ifs <;> simp

theorem get_suggestions_ne_fallback (c : Current) (f : Forecast)
    (r : String) (hr : get_suggestions c f = some r) :
    r ≠ "- Enjoy your day!" := by
  cases hday : dayOf f with
  | none => rw [get_suggestions, hday] at hr; exact absurd hr (by simp)
  | some d =>
    rw [get_suggestions, hday] at hr
    simp only [Option.map_some', Option.some.injEq] at hr
    subst hr
    simp only [suggestionsList]
    split_ifs
    all_goals
      first
        | decide
        | exact absurd ‹"\n".intercalate _ = ""› (by decide)

/-- C2 counterexample: with the air-quality block absent (so the index is
treated as 0), `get_suggestions` emits the positive air-quality note and
not the poor-air-quality caution, contradicting the claim that absent/0
yields the caution. -/
theorem air_quality_zero_counterexample :
    Current.empty.air_quality = none ∧
    aqPoorMsg ∉ suggestionsList Current.empty Day.empty ∧
    aqGoodMsg ∈ suggestionsList Current.empty Day.empty := by
  refine ⟨rfl, ?_, ?_⟩ <;> decide

/-- C2 (amended): an absent air-quality block, an absent index, or an
index of 0 falls in the `≤ 2` bucket, so the positive air-quality note is
emitted and the caution is not; and for every input exactly one of the two
air-quality suggestions is emitted. -/
theorem air_quality_rule (c : Current) (d : Day) :
    ((c.air_quality = none ∨
      (c.air_quality.getD AirQuality.empty).us_epa_index = none ∨
      (c.air_quality.getD AirQuality.empty).us_epa_index = some 0) →
      aqGoodMsg ∈ suggestionsList c d ∧ aqPoorMsg ∉ suggestionsList c d)
    ∧ (suggestionsList c d).count aqGoodMsg +
        (suggestionsList c d).count aqPoorMsg = 1 := by
  constructor
  · intro h
    have haqi : aqiOf c = 0 := by
      unfold aqiOf
      rcases h with h | h | h <;> rw [h] <;> rfl
    constructor
    · exact (good_mem_iff c d).2 (by rw [haqi]; norm_num)
    · rw [poor_mem_iff c d]
      simp [haqi]
  · exact count_aq c d

theorem air_quality_rule_witness :
    aqGoodMsg ∈ suggestionsList
        ⟨none, none, none, none, none, none, none, none, some ⟨some 0⟩⟩
        Day.empty ∧
      aqPoorMsg ∉ suggestionsList
        ⟨none, none, none, none, none, none, none, none, some ⟨some 0⟩⟩
        Day.empty :=
  (air_quality_rule ⟨none, none, none, none, none, none, none, none, some ⟨some 0⟩⟩
    Day.empty).1 (Or.inr (Or.inr rfl))

/-- C4: the suggestion list is never empty, is the in-order concatenation
of the umbrella, air-quality and UV rules, the umbrella advisory appears
iff `daily_will_it_rain` is truthy or `daily_chance_of_rain > 40`, exactly
one air-quality item always appears, the high-UV warning appears iff
`uv > 5`, the moderate-UV note iff `2 < uv ≤ 5`, and the
"- Enjoy your day!" fallback of line 123 is never the returned string. -/
theorem suggestions_rules (c : Current) (d : Day) :
    suggestionsList c d ≠ []
    ∧ List.Sublist (suggestionsList c d)
        [umbrellaMsg, aqGoodMsg, aqPoorMsg, uvHighMsg, uvModMsg]
    ∧ (umbrellaMsg ∈ suggestionsList c d ↔
        (d.daily_will_it_rain.getD false = true ∨
          d.daily_chance_of_rain.getD 0 > 40))
    ∧ (suggestionsList c d).count aqGoodMsg +
        (suggestionsList c d).count aqPoorMsg = 1
    ∧ (uvHighMsg ∈ suggestionsList c d ↔ c.uv.getD 0 > 5)
    ∧ (uvModMsg ∈ suggestionsList c d ↔
        (2 < c.uv.getD 0 ∧ c.uv.getD 0 ≤ 5))
    ∧ (∀ (f : Forecast) (r : String), get_suggestions c f = some r →
        r ≠ "- Enjoy your day!") :=
  ⟨suggestions_ne_nil c d, suggestions_sublist c d, umb_mem_iff c d,
    count_aq c d, high_mem_iff c d, mod_mem_iff c d,
    fun f r hr => get_suggestions_ne_fallback c f r hr⟩

theorem suggestions_rules_witness :
    suggestionsList Current.empty Day.empty ≠ [] ∧
      ("- Air quality is good—a great day for outdoor activities." : String) ≠
        "- Enjoy your day!" :=
  ⟨(suggestions_rules Current.empty Day.empty).1,
    (suggestions_rules Current.empty Day.empty).2.2.2.2.2.2 ⟨none⟩
      "- Air quality is good—a great day for outdoor activities." (by decide)⟩

theorem alookup_map_self (m : List (String × List String)) (uid : String)
    (v : List String) (h : (alookup m uid).isSome = true) :
    alookup (m.map fun p => if p.1 = uid then (uid, v) else p) uid = some v := by
  induction m with
  | nil => simp [alookup] at h
  | cons p rest ih =>
    by_cases hp : p.1 = uid
    · simp [alookup, hp]
    · simp only [alookup, hp, if_false] at h
      simp [alookup, hp, ih h]

theorem alookup_append_right (m : List (String × List String)) (uid : String)
    (h : alookup m uid = none) (l : List (String × List String)) :
    alookup (m ++ l) uid = alookup l uid := by
  induction m with
  | nil => simp
  | cons p rest ih =>
    by_cases hp : p.1 = uid
    · simp [alookup, hp] at h
    · simp only [alookup, hp, if_false] at h
      simpa [alookup, hp] using ih h

theorem alookup_setLocs_self (m : List (String × List String))
    (uid : String) (v : List String) :
    alookup (setLocs m uid v) uid = some v := by
  unfold setLocs
  by_cases h : (alookup m uid).isSome = true
  · rw [if_pos h]
    exact alookup_map_self m uid v h
  · rw [if_neg h]
    have hn : alookup m uid = none := by
      cases hc : alookup m uid with
      | none => rfl
      | some x => rw [hc] at h; simp at h
    rw [alookup_append_right m uid hn]
    simp [alookup]

theorem alookup_setdefault_self (m : List (String × List String))
    (uid : String) :
    alookup (setdefaultL m uid) uid = some (lookupLocs m uid) := by
  unfold setdefaultL lookupLocs
  cases hc : alookup m uid with
  | some v => rw [if_pos (by simp [hc]), hc]; rfl
  | none =>
    rw [if_neg (by simp [hc]), alookup_append_right m uid hc]
    simp [alookup]

theorem setdefault_of_isSome (m : List (String × List String))
    (uid : String) (h : (alookup m uid).isSome = true) :
    setdefaultL m uid = m := by
  unfold setdefaultL
  rw [if_pos h]

theorem mem_setLocs (m : List (String × List String)) (uid : String)
    (v : List String) (p : String × List String)
    (h : p ∈ setLocs m uid v) : p = (uid, v) ∨ p ∈ m := by
  unfold setLocs at h
  by_cases hs : (alookup m uid).isSome = true
  · rw [if_pos hs] at h
    obtain ⟨q, hq, hpq⟩ := List.mem_map.1 h
    by_cases hq1 : q.1 = uid
    · left; rw [← hpq, if_pos hq1]
    · right; rw [← hpq, if_neg hq1]; exact hq
  · rw [if_neg hs] at h
    rcases List.mem_append.1 h with h | h
    · right; exact h
    · left; simpa using h

theorem mem_setdefault (m : List (String × List String)) (uid : String)
    (p : String × List String) (h : p ∈ setdefaultL m uid) :
    p = (uid, []) ∨ p ∈ m := by
  unfold setdefaultL at h
  by_cases hs : (alookup m uid).isSome = true
  · rw [if_pos hs] at h; right; exact h
  · rw [if_neg hs] at h
    rcases List.mem_append.1 h with h | h
    · right; exact h
    · left; simpa using h

theorem alookup_mem (m : List (String × List String)) (uid : String)
    (v : List String) (h : alookup m uid = some v) : (uid, v) ∈ m := by
  induction m with
  | nil => simp [alookup] at h
  | cons q rest ih =>
    by_cases hq : q.1 = uid
    · simp only [alookup, hq, if_true, Option.some.injEq] at h
      subst hq
      subst h
      exact List.mem_cons_self _ _
    · simp only [alookup, hq, if_false] at h
      exact List.mem_cons_of_mem _ (ih h)

theorem lookupLocs_setdefault (m : List (String × List String)) (uid : String) :
    lookupLocs (setdefaultL m uid) uid = lookupLocs m uid := by
  unfold lookupLocs
  rw [alookup_setdefault_self]
  rfl

theorem intercalate_single (s : String) (a : String) :
    String.intercalate s [a] = a := rfl

theorem add_command_fresh (validate : String → Bool) (saveOk : Bool)
    (st : RegState) (user_id chat_id : String) (args : List String)
    (hw : user_id ∈ st.whitelist) (hargs : args ≠ [])
    (hv : validate (String.intercalate " " args) = true)
    (hfresh : lowerStr (String.intercalate " " args) ∉
      (lookupLocs st.user_locations user_id).map lowerStr) :
    add_command validate saveOk st user_id chat_id args =
      ⟨⟨st.whitelist,
          setLocs (setdefaultL st.user_locations user_id) user_id
            (lookupLocs st.user_locations user_id ++ [String.intercalate " " args])⟩,
        if saveOk then
          [mkEv chat_id
            ("Added '" ++ String.intercalate " " args ++ "' to your locations.")]
        else [], !saveOk⟩ := by
  have hfresh' : lowerStr (String.intercalate " " args) ∉
      (lookupLocs (setdefaultL st.user_locations user_id) user_id).map
        lowerStr := by
    rwa [lookupLocs_setdefault]
  simp only [add_command]
  rw [if_neg (not_not_intro hw), if_neg hargs, if_neg (by simp [hv]),
    if_pos hfresh', lookupLocs_setdefault]
  cases saveOk <;> rfl

theorem add_command_dup (validate : String → Bool) (saveOk : Bool)
    (st : RegState) (user_id chat_id : String) (args : List String)
    (hw : user_id ∈ st.whitelist) (hargs : args ≠ [])
    (hv : validate (String.intercalate " " args) = true)
    (hdup : lowerStr (String.intercalate " " args) ∈
      (lookupLocs st.user_locations user_id).map lowerStr) :
    add_command validate saveOk st user_id chat_id args =
      ⟨⟨st.whitelist, setdefaultL st.user_locations user_id⟩,
        [mkEv chat_id
          ("'" ++ String.intercalate " " args ++ "' is already in your list.")],
        false⟩ := by
  have hdup' : ¬ lowerStr (String.intercalate " " args) ∉
      (lookupLocs (setdefaultL st.user_locations user_id) user_id).map
        lowerStr := by
    rw [lookupLocs_setdefault]
    exact not_not_intro hdup
  simp only [add_command]
  rw [if_neg (not_not_intro hw), if_neg hargs, if_neg (by simp [hv]),
    if_neg hdup']

/-- C1 counterexample: with a failing store write, adding "Paris" for a
recipient whose list is ["London"] leaves the in-memory list
["London", "Paris"], not the pre-mutation list ["London"] the claim
requires. -/
theorem add_rollback_counterexample :
    "1" ∈ (⟨["1"], [("1", ["London"])]⟩ : RegState).whitelist ∧
    lookupLocs (add_command (fun _ => true) false ⟨["1"], [("1", ["London"])]⟩
        "1" "1" ["Paris"]).st.user_locations "1" = ["London", "Paris"] ∧
    (["London", "Paris"] : List String) ≠ ["London"] := by
  refine ⟨by decide, by decide, by decide⟩

/-- C1 (amended): a persistence failure during a successful-path add is
not rolled back: the handler keeps the appended location in memory (the
recipient's list becomes the pre-mutation list with the new location
appended), sends no confirmation reply, and the store exception
escapes. -/
theorem add_persist_failure_keeps_mutation (validate : String → Bool)
    (st : RegState) (user_id chat_id : String) (args : List String)
    (hw : user_id ∈ st.whitelist) (hargs : args ≠ [])
    (hv : validate (String.intercalate " " args) = true)
    (hfresh : lowerStr (String.intercalate " " args) ∉
      (lookupLocs st.user_locations user_id).map lowerStr) :
    (add_command validate false st user_id chat_id args).raised = true ∧
    (add_command validate false st user_id chat_id args).evs = [] ∧
    lookupLocs
        (add_command validate false st user_id chat_id args).st.user_locations
        user_id =
      lookupLocs st.user_locations user_id ++ [String.intercalate " " args] := by
  rw [add_command_fresh validate false st user_id chat_id args hw hargs hv hfresh]
  refine ⟨rfl, rfl, ?_⟩
  unfold lookupLocs
  rw [alookup_setLocs_self]
  rfl

theorem add_persist_failure_keeps_mutation_witness :
    (add_command (fun _ => true) false ⟨["1"], []⟩ "1" "1" ["Paris"]).raised = true ∧
    (add_command (fun _ => true) false ⟨["1"], []⟩ "1" "1" ["Paris"]).evs = [] ∧
    lookupLocs (add_command (fun _ => true) false ⟨["1"], []⟩ "1" "1"
        ["Paris"]).st.user_locations "1" =
      lookupLocs (⟨["1"], []⟩ : RegState).user_locations "1" ++
        [String.intercalate " " ["Paris"]] :=
  add_persist_failure_keeps_mutation (fun _ => true) ⟨["1"], []⟩ "1" "1" ["Paris"]
    (by decide) (by decide) rfl (by decide)

theorem nodup_lookupLocs (st : RegState) (uid : String) (h : NoCaseDup st) :
    ((lookupLocs st.user_locations uid).map lowerStr).Nodup := by
  unfold lookupLocs
  cases hc : alookup st.user_locations uid with
  | none => simp
  | some l => exact h (uid, l) (alookup_mem _ _ _ hc)

theorem add_preserves_NoCaseDup (validate : String → Bool) (saveOk : Bool)
    (st : RegState) (user_id chat_id : String) (args : List String)
    (h : NoCaseDup st) :
    NoCaseDup (add_command validate saveOk st user_id chat_id args).st := by
  simp only [add_command]
  split_ifs with h1 h2 h3 h4 h5
  all_goals intro p hp
  all_goals
    first
      | exact h p hp
      | (rcases mem_setdefault _ _ _ hp with rfl | hp'
         · simp
         · exact h p hp')
      | (rcases mem_setLocs _ _ _ _ hp with rfl | hp'
         · rw [lookupLocs_setdefault]
           have hn := nodup_lookupLocs st user_id h
           have hfr : lowerStr (String.intercalate " " args) ∉
               (lookupLocs st.user_locations user_id).map lowerStr := by
             rwa [lookupLocs_setdefault] at h4
           simp [List.nodup_append, hn, hfr]
         · rcases mem_setdefault _ _ _ hp' with rfl | hp''
           · simp
           · exact h p hp'')

/-- C6: adding a location then adding it again in any letter case returns
the already-present reply, leaves the state unchanged, and the recipient's
list holds exactly one case-insensitive match for it; and every sequence
of `add_command` calls preserves the invariant that no recipient's list
contains two case-insensitively equal locations. -/
theorem add_idempotent_case_variation :
    (∀ (v1 v2 : String → Bool) (st : RegState)
        (user_id chat1 chat2 city city' : String),
      user_id ∈ st.whitelist → v1 city = true → v2 city' = true →
      lowerStr city ∉ (lookupLocs st.user_locations user_id).map lowerStr →
      lowerStr city' = lowerStr city →
      (add_command v2 true (add_command v1 true st user_id chat1 [city]).st
          user_id chat2 [city']).st =
        (add_command v1 true st user_id chat1 [city]).st ∧
      (add_command v2 true (add_command v1 true st user_id chat1 [city]).st
          user_id chat2 [city']).evs =
        [mkEv chat2 ("'" ++ city' ++ "' is already in your list.")] ∧
      ((lookupLocs (add_command v2 true (add_command v1 true st user_id chat1
            [city]).st user_id chat2 [city']).st.user_locations
          user_id).filter (fun l => lowerStr l == lowerStr city)).length = 1)
    ∧ (∀ (reqs : List AddReq) (st : RegState),
        NoCaseDup st → NoCaseDup (reqs.foldl applyAdd st)) := by
  constructor
  · intro v1 v2 st user_id chat1 chat2 city city' hw hv1 hv2 hfresh hcase
    have h1 := add_command_fresh v1 true st user_id chat1 [city] hw (by simp)
      (by rwa [intercalate_single]) (by rwa [intercalate_single])
    rw [intercalate_single] at h1
    set st1 : RegState :=
      ⟨st.whitelist, setLocs (setdefaultL st.user_locations user_id) user_id
        (lookupLocs st.user_locations user_id ++ [city])⟩ with hst1
    rw [h1]
    have hlocs1 : lookupLocs st1.user_locations user_id =
        lookupLocs st.user_locations user_id ++ [city] := by
      rw [hst1]
      unfold lookupLocs
      rw [alookup_setLocs_self]
      rfl
    have hdup : lowerStr city' ∈
        (lookupLocs st1.user_locations user_id).map lowerStr := by
      rw [hlocs1, hcase]
      simp
    have h2 := add_command_dup v2 true st1 user_id chat2 [city'] hw (by simp)
      (by rwa [intercalate_single]) (by rwa [intercalate_single])
    rw [intercalate_single] at h2
    have hsome : (alookup st1.user_locations user_id).isSome = true := by
      rw [hst1]
      simp [alookup_setLocs_self]
    rw [h2]
    refine ⟨?_, rfl, ?_⟩
    · simp [setdefault_of_isSome _ _ hsome, hst1]
    · simp only [HRes.st]
      have : lookupLocs (setdefaultL st1.user_locations user_id) user_id =
          lookupLocs st.user_locations user_id ++ [city] := by
        rw [lookupLocs_setdefault, hlocs1]
      rw [this, List.filter_append]
      have hnone : (lookupLocs st.user_locations user_id).filter
          (fun l => lowerStr l == lowerStr city) = [] := by
        rw [List.filter_eq_nil_iff]
        intro a ha
        simp only [beq_iff_eq]
        intro hc
        exact hfresh (by rw [← hc]; exact List.mem_map_of_mem _ ha)
      rw [hnone]
      simp
  · intro reqs
    induction reqs with
    | nil => intro st h; exact h
    | cons r rest ih =>
      intro st h
      exact ih _ (add_preserves_NoCaseDup r.validate r.saveOk st r.user_id
        r.chat_id r.args h)

theorem add_idempotent_case_variation_witness :
    (add_command (fun _ => true) true
        (add_command (fun _ => true) true ⟨["1"], []⟩ "1" "1" ["Paris"]).st
        "1" "1" ["paris"]).evs =
      [mkEv "1" "'paris' is already in your list."] ∧
    ((lookupLocs (add_command (fun _ => true) true
        (add_command (fun _ => true) true ⟨["1"], []⟩ "1" "1" ["Paris"]).st
        "1" "1" ["paris"]).st.user_locations "1").filter
      (fun l => lowerStr l == lowerStr "Paris")).length = 1 :=
  ⟨(add_idempotent_case_variation.1 (fun _ => true) (fun _ => true) ⟨["1"], []⟩
      "1" "1" "1" "Paris" "paris" (by decide) rfl rfl (by decide) (by decide)).2.1,
    (add_idempotent_case_variation.1 (fun _ => true) (fun _ => true) ⟨["1"], []⟩
      "1" "1" "1" "Paris" "paris" (by decide) rfl rfl (by decide) (by decide)).2.2⟩

/-- C7: removing a location with no case-insensitive match replies
not-found and leaves the state exactly unchanged; removing a present
(case-insensitive) match with a successful store write replies removed and
the match is no longer in the recipient's list. -/
theorem remove_spec (saveOk : Bool) (st : RegState)
    (user_id chat_id city : String) (hw : user_id ∈ st.whitelist) :
    (lowerStr city ∉ (lookupLocs st.user_locations user_id).map lowerStr →
      remove_command saveOk st user_id chat_id [city] =
        ⟨st, [mkEv chat_id ("'" ++ city ++ "' not found in your list.")], false⟩)
    ∧ (lowerStr city ∈ (lookupLocs st.user_locations user_id).map lowerStr →
        saveOk = true →
        (remove_command saveOk st user_id chat_id [city]).evs =
          [mkEv chat_id ("Removed '" ++ city ++ "'.")] ∧
        lowerStr city ∉
          (lookupLocs (remove_command saveOk st user_id chat_id
            [city]).st.user_locations user_id).map lowerStr) := by
  constructor
  · intro hno
    simp only [remove_command]
    rw [if_neg (not_not_intro hw), if_neg (by simp), intercalate_single,
      if_neg (by intro hc; exact hno hc.2)]
  · intro hmem hsave
    subst hsave
    have hsome : (alookup st.user_locations user_id).isSome = true := by
      cases hc : alookup st.user_locations user_id with
      | none => rw [lookupLocs, hc] at hmem; simp at hmem
      | some l => rfl
    simp only [remove_command]
    rw [if_neg (not_not_intro hw), if_neg (by simp), intercalate_single,
      if_pos ⟨hsome, hmem⟩]
    rw [if_pos trivial]
    refine ⟨rfl, ?_⟩
    simp only [HRes.st]
    unfold lookupLocs
    rw [alookup_setLocs_self]
    simp only [Option.getD_some]
    intro hc
    obtain ⟨a, ha, hal⟩ := List.mem_map.1 hc
    obtain ⟨ha', hfilt⟩ := List.mem_filter.1 ha
    rw [bne_iff_ne] at hfilt
    exact hfilt hal

theorem remove_spec_witness :
    remove_command true (⟨["1"], [("1", ["Paris"])]⟩ : RegState) "1" "1" ["Rome"] =
      ⟨⟨["1"], [("1", ["Paris"])]⟩,
        [mkEv "1" "'Rome' not found in your list."], false⟩ ∧
    (remove_command true (⟨["1"], [("1", ["Paris"])]⟩ : RegState) "1" "1"
        ["paris"]).evs = [mkEv "1" "Removed 'paris'."] ∧
    lowerStr "paris" ∉
      (lookupLocs (remove_command true (⟨["1"], [("1", ["Paris"])]⟩ : RegState)
        "1" "1" ["paris"]).st.user_locations "1").map lowerStr :=
  ⟨(remove_spec true ⟨["1"], [("1", ["Paris"])]⟩ "1" "1" "Rome"
      (by decide)).1 (by decide),
    (remove_spec true ⟨["1"], [("1", ["Paris"])]⟩ "1" "1" "paris"
      (by decide)).2 (by decide) rfl⟩

theorem runCities_ok (fmt : Int → String) (fetch : String → Option WeatherData)
    (sendOk : String → String → Bool) (chat_id : String)
    (hfmt : ∀ city wd, fetch city = some wd →
      (format_weather_report fmt city wd).isSome = true) :
    ∀ cities, runCities fmt fetch sendOk chat_id cities =
      (cities.map (expectedReportEv fmt fetch sendOk chat_id), false) := by
  intro cities
  induction cities with
  | nil => rfl
  | cons c cs ih =>
    cases hc : fetch c with
    | none => simp [runCities, send_weather_report, expectedReportEv, hc, ih]
    | some wd =>
      obtain ⟨r, hr⟩ := Option.isSome_iff_exists.1 (hfmt c wd hc)
      simp [runCities, send_weather_report, expectedReportEv, hc, hr, ih]

theorem runUsers_ok (fmt : Int → String) (fetch : String → Option WeatherData)
    (sendOk : String → String → Bool) (wl : List String)
    (hfmt : ∀ city wd, fetch city = some wd →
      (format_weather_report fmt city wd).isSome = true) :
    ∀ entries, runUsers fmt fetch sendOk wl entries =
      ((entries.filter fun p => decide (p.1 ∈ wl)).flatMap
        fun p => p.2.map (expectedReportEv fmt fetch sendOk p.1), false) := by
  intro entries
  induction entries with
  | nil => rfl
  | cons p rest ih =>
    obtain ⟨user_id, locations⟩ := p
    by_cases hu : user_id ∈ wl
    · simp [runUsers, hu, runCities_ok fmt fetch sendOk user_id hfmt, ih]
    · simp [runUsers, hu, ih]

/-- C5: over any registry snapshot and any fetch/send oracles whose
successful fetches format, one scheduled run attempts exactly one message
per (whitelisted recipient, location) pair, in registry order, and
finishes without an escaped exception — a fetch failure (the pair's
attempt becomes the could-not-retrieve notice) or a send failure (the
attempt is recorded undelivered) never prevents any later pair from being
attempted. -/
theorem dispatch_isolates_failures (fmt : Int → String)
    (fetch : String → Option WeatherData) (sendOk : String → String → Bool)
    (st : RegState)
    (hfmt : ∀ city wd, fetch city = some wd →
      (format_weather_report fmt city wd).isSome = true) :
    scheduled_weather_update fmt fetch sendOk st =
      ((st.user_locations.filter fun p => decide (p.1 ∈ st.whitelist)).flatMap
        fun p => p.2.map (expectedReportEv fmt fetch sendOk p.1), false) :=
  runUsers_ok fmt fetch sendOk st.whitelist hfmt st.user_locations

theorem dispatch_isolates_failures_witness :
    scheduled_weather_update (fun _ => "") (fun _ => none) (fun _ _ => false)
        ⟨["1"], [("1", ["Paris", "Oslo"]), ("2", ["Rome"])]⟩ =
      ([⟨"1", "Could not retrieve weather for Paris.", false⟩,
        ⟨"1", "Could not retrieve weather for Oslo.", false⟩], false) := by
  rw [dispatch_isolates_failures (fun _ => "") (fun _ => none) (fun _ _ => false)
    ⟨["1"], [("1", ["Paris", "Oslo"]), ("2", ["Rome"])]⟩
    (fun c wd hc => absurd hc (by simp))]
  rfl

/-- C8 counterexample: a non-whitelisted recipient invoking the
self-whitelist command receives a response and mutates the whitelist, and
`/start` responds to anyone — the claim that every command invocation by a
non-whitelisted recipient is silently ignored with no state change is
false. -/
theorem unauthorized_not_always_silent :
    "2" ∉ (⟨["1"], []⟩ : RegState).whitelist ∧
    (buymeacoffee_command true ⟨["1"], []⟩ "2" "2").st ≠ (⟨["1"], []⟩ : RegState) ∧
    (buymeacoffee_command true ⟨["1"], []⟩ "2" "2").evs ≠ [] ∧
    (start_command ⟨["1"], []⟩ "2").evs ≠ [] := by
  refine ⟨by decide, by decide, by decide, by decide⟩

/-- C8 (amended): the silent-ignore of unauthorized recipients holds for
the five whitelist-guarded commands — weather, add, remove, list,
history — which send no message and leave the state unchanged; it does not
extend to the self-whitelist command (responds and appends the caller),
`/start`/`/help` (respond to anyone) or `/mock` (tells non-admins they are
unauthorized). -/
theorem unauthorized_silent (fmt : Int → String)
    (fetch : String → Option WeatherData) (sendOk : String → String → Bool)
    (validate : String → Bool) (saveOk : Bool) (parseOk isFuture : String → Bool)
    (fetchHist : String → String → Option WeatherData) (st : RegState)
    (user_id chat_id : String) (args : List String)
    (h : user_id ∉ st.whitelist) :
    weather_command fmt fetch sendOk st user_id chat_id args = ⟨st, [], false⟩ ∧
    add_command validate saveOk st user_id chat_id args = ⟨st, [], false⟩ ∧
    remove_command saveOk st user_id chat_id args = ⟨st, [], false⟩ ∧
    list_command st user_id chat_id = ⟨st, [], false⟩ ∧
    history_command parseOk isFuture fetchHist st user_id chat_id args =
      ⟨st, [], false⟩ := by
  refine ⟨?_, ?_, ?_, ?_, ?_⟩
  · simp only [weather_command]; rw [if_pos h]
  · simp only [add_command]; rw [if_pos h]
  · simp only [remove_command]; rw [if_pos h]
  · simp only [list_command]; rw [if_pos h]
  · simp only [history_command]; rw [if_pos h]

theorem unauthorized_silent_witness :
    list_command ⟨["1"], []⟩ "2" "2" = ⟨⟨["1"], []⟩, [], false⟩ ∧
    add_command (fun _ => true) true ⟨["1"], []⟩ "2" "2" ["Paris"] =
      ⟨⟨["1"], []⟩, [], false⟩ :=
  ⟨(unauthorized_silent (fun _ => "") (fun _ => none) (fun _ _ => true)
      (fun _ => true) true (fun _ => true) (fun _ => false) (fun _ _ => none)
      ⟨["1"], []⟩ "2" "2" ["Paris"] (by decide)).2.2.2.1,
    (unauthorized_silent (fun _ => "") (fun _ => none) (fun _ _ => true)
      (fun _ => true) true (fun _ => true) (fun _ => false) (fun _ _ => none)
      ⟨["1"], []⟩ "2" "2" ["Paris"] (by decide)).2.1⟩

theorem weather_command_st (fmt : Int → String)
    (fetch : String → Option WeatherData) (sendOk : String → String → Bool)
    (st : RegState) (user_id chat_id : String) (args : List String) :
    (weather_command fmt fetch sendOk st user_id chat_id args).st = st := by
  simp only [weather_command]
  repeat' first | rfl | split

theorem add_command_wl (validate : String → Bool) (saveOk : Bool)
    (st : RegState) (user_id chat_id : String) (args : List String) :
    (add_command validate saveOk st user_id chat_id args).st.whitelist =
      st.whitelist := by
  simp only [add_command]
  repeat' first | rfl | split

theorem remove_command_wl (saveOk : Bool) (st : RegState)
    (user_id chat_id : String) (args : List String) :
    (remove_command saveOk st user_id chat_id args).st.whitelist =
      st.whitelist := by
  simp only [remove_command]
  repeat' first | rfl | split

theorem list_command_st (st : RegState) (user_id chat_id : String) :
    (list_command st user_id chat_id).st = st := by
  simp only [list_command]
  repeat' first | rfl | split

theorem history_command_st (parseOk isFuture : String → Bool)
    (fetchHist : String → String → Option WeatherData) (st : RegState)
    (user_id chat_id : String) (args : List String) :
    (history_command parseOk isFuture fetchHist st user_id chat_id args).st = st := by
  simp only [history_command]
  repeat' first | rfl | split

theorem coffee_command_wl (saveOk : Bool) (st : RegState)
    (user_id chat_id : String) :
    (buymeacoffee_command saveOk st user_id chat_id).st.whitelist =
        st.whitelist ∨
      (buymeacoffee_command saveOk st user_id chat_id).st.whitelist =
        st.whitelist ++ [user_id] := by
  unfold buymeacoffee_command
  split_ifs with h1 h2
  · left; rfl
  · right; rfl
  · right; rfl

theorem mock_command_wl (o : O) (env : Env) (st : RegState)
    (user_id chat_id : String) (args : List String) :
    ∃ extra, (mock_command o env st user_id chat_id args).st.whitelist =
      st.whitelist ++ extra := by
  unfold mock_command
  by_cases ha : user_id ∉ env.admins
  · rw [if_pos ha]; exact ⟨[], by simp⟩
  · rw [if_neg ha]
    cases args with
    | nil => exact ⟨[], by simp⟩
    | cons command_to_mock mock_args =>
      dsimp only
      split_ifs with h1 h2 h3 h4 h5 h6 h7 h8
      · exact ⟨[], by simp [weather_command_st]⟩
      · exact ⟨[], by simp [add_command_wl]⟩
      · exact ⟨[], by simp [remove_command_wl]⟩
      · exact ⟨[], by simp [list_command_st]⟩
      · exact ⟨[], by simp [history_command_st]⟩
      · rcases coffee_command_wl o.saveOk st user_id chat_id with h | h
        · exact ⟨[], by simp [h]⟩
        · exact ⟨[user_id], h⟩
      · exact ⟨[], by simp [start_command]⟩
      · exact ⟨[], by simp⟩
      · exact ⟨[], by simp⟩

theorem dispatch_wl (o : O) (env : Env) (st : RegState) (cmd : Cmd)
    (user_id chat_id : String) :
    ∃ extra, (dispatch o env st cmd user_id chat_id).st.whitelist =
      st.whitelist ++ extra := by
  cases cmd with
  | weather args => exact ⟨[], by simp [dispatch, weather_command_st]⟩
  | add args => exact ⟨[], by simp [dispatch, add_command_wl]⟩
  | remove args => exact ⟨[], by simp [dispatch, remove_command_wl]⟩
  | locList => exact ⟨[], by simp [dispatch, list_command_st]⟩
  | history args => exact ⟨[], by simp [dispatch, history_command_st]⟩
  | coffee =>
    rcases coffee_command_wl o.saveOk st user_id chat_id with h | h
    · exact ⟨[], by simp [dispatch, h]⟩
    · exact ⟨[user_id], by simp [dispatch, h]⟩
  | startHelp => exact ⟨[], by simp [dispatch, start_command]⟩
  | mock args => simpa [dispatch] using mock_command_wl o env st user_id chat_id args

/-- C9: the configured admin-notification recipient is in the whitelist
after the startup fix-up of lines 44-45, and every command dispatch only
ever appends to the whitelist (the self-whitelist grant appends the
caller; nothing ever removes an id), so whitelist membership — in
particular the admin recipient's — is preserved by every operation. -/
theorem whitelist_admin_invariant :
    (∀ (w : List String) (admin_chat_id : String),
      admin_chat_id ∈ initWhitelist w admin_chat_id)
    ∧ (∀ (o : O) (env : Env) (st : RegState) (cmd : Cmd)
        (user_id chat_id : String),
        ∃ extra, (dispatch o env st cmd user_id chat_id).st.whitelist =
          st.whitelist ++ extra)
    ∧ (∀ (o : O) (env : Env) (st : RegState) (cmd : Cmd)
        (user_id chat_id x : String), x ∈ st.whitelist →
        x ∈ (dispatch o env st cmd user_id chat_id).st.whitelist) := by
  refine ⟨?_, dispatch_wl, ?_⟩
  · intro w admin_chat_id
    unfold initWhitelist
    by_cases h : admin_chat_id ∉ w
    · rw [if_pos h]; simp
    · rw [if_neg h]; exact not_not.1 h
  · intro o env st cmd user_id chat_id x hx
    obtain ⟨extra, hex⟩ := dispatch_wl o env st cmd user_id chat_id
    rw [hex]
    exact List.mem_append_left _ hx

theorem whitelist_admin_invariant_witness :
    "1" ∈ initWhitelist ["1"] "1" ∧
    "1" ∈ (dispatch oW ⟨["9"]⟩ ⟨["1"], []⟩ .coffee "2" "2").st.whitelist :=
  ⟨whitelist_admin_invariant.1 ["1"] "1",
    whitelist_admin_invariant.2.2 oW ⟨["9"]⟩ ⟨["1"], []⟩ .coffee "2" "2" "1"
      (by decide)⟩

end WeatherBot
